import Mathlib

/-!
Verification of the IPO valuation-and-pricing engines of this repository.

The repository contains several near-duplicate, independently evolved copies of
the engine:

* `src/unnamed/part_001` — the most evolved engine (dollar-based raises,
  notable-order drop-off, natural-log book-quality term): embedded in
  namespace `P1`.
* `src/server/services/ipoPricingService.ts` — an earlier variant (no debt
  field, piecewise-linear book adjustment, below-floor demand extrapolation):
  embedded in namespace `Svc`.
* `src/unnamed/part_002` — the earliest variant (EV approximated by market
  cap): embedded in namespace `P2`.
* `src/unnamed/part_000` — the shareholder-structure engine (DCF/rNPV
  valuation, ownership table, debt repayment): embedded in namespace `P0`.

All machine numbers are modelled as exact rationals (`ℚ`); the one
transcendental operation (`Math.log`) is modelled with `Real.log`.
Division by zero yields `0` in `ℚ` (JavaScript yields `Infinity`); no theorem
below relies on the value of a division whose denominator is zero.
JavaScript truthiness tests (`x && …`, `x ? … : …`, `x || y`) on numeric
fields are modelled as the value being present and nonzero, exactly as the
source relies on them.

Presentation-only outputs (memo text, rationale strings, per-row warning
strings, Excel serialization) and input fields that feed only those outputs
are not modelled; every claim below concerns the numeric pipeline.
-/

/-- An order-book tier: `{ priceLevel, oversubscription }` (shared by all
engine variants). -/
structure OrderTier where
  priceLevel : ℚ
  oversubscription : ℚ
deriving DecidableEq, Repr

/-- The comparator `(a, b) => b.priceLevel - a.priceLevel` used by
`[...orderBook].sort(...)`: sorting with it yields tiers in descending
`priceLevel` order. -/
def tierGE (a b : OrderTier) : Prop := b.priceLevel ≤ a.priceLevel

instance : DecidableRel tierGE := fun a b =>
  inferInstanceAs (Decidable (b.priceLevel ≤ a.priceLevel))

instance : IsTotal OrderTier tierGE :=
  ⟨fun a b => le_total b.priceLevel a.priceLevel⟩

instance : IsTrans OrderTier tierGE :=
  ⟨fun _ _ _ h1 h2 => le_trans h2 h1⟩

/-- Source: `sortedOrderBook[sortedOrderBook.length - 1]`: the last element of a
non-empty list, given as head plus tail. -/
def lastTier : OrderTier → List OrderTier → OrderTier
  | a, [] => a
  | _, b :: l => lastTier b l

namespace P1

/-! ## `src/unnamed/part_001` — `calculateIPOPricing` -/

/-- A notable order: `{ investorName, indicatedSizeM, maxPrice? }`
(`isDefending` feeds no computation and is omitted). -/
structure NotableOrder where
  investorName : String
  indicatedSizeM : ℚ
  maxPrice : Option ℚ
deriving DecidableEq, Repr

inductive Aggressiveness where
  | conservative | moderate | aggressive | maximum
deriving DecidableEq, Repr

inductive ManagementPriority where
  | valuation_maximization | runway_extension | deal_certainty
deriving DecidableEq, Repr

/-- The `IPOAssumptions` fields that feed the numeric pipeline of
`calculateIPOPricing` in `src/unnamed/part_001`.  Fields that feed only the
memo/rationale strings or the unclaimed return-adjustment terms
(`fairValuePerShare`, revenue/peer multiples, risk-flag coefficients, …) are
omitted. -/
structure Assumptions where
  sharesOutstandingPreIPO : ℚ
  primarySharesOffered : ℚ
  secondarySharesOffered : ℚ
  greenshoeShares : ℚ
  greenshoePercent : ℚ
  primaryDollarRaiseM : Option ℚ
  secondaryDollarRaiseM : Option ℚ
  indicatedPriceRangeLow : Option ℚ
  indicatedPriceRangeHigh : Option ℚ
  currentCash : ℚ
  currentDebt : ℚ
  orderBook : List OrderTier
  notableOrders : List NotableOrder
  sectorMedianFirstDayPop : Option ℚ
  sectorAverageFirstDayPop : Option ℚ
  historicalFirstDayPop : Option ℚ
  pricingAggressiveness : Aggressiveness
  managementPriority : Option ManagementPriority
  minAcceptablePrice : Option ℚ
deriving DecidableEq, Repr

/-- The numeric fields of one `PricingRow`, recomputed per price point. -/
structure Row where
  offerPrice : ℚ
  sharesSoldPrimary : ℚ
  sharesSoldSecondary : ℚ
  sharesSoldGreenshoe : ℚ
  totalSharesSold : ℚ
  fdSharesPostIPO : ℚ
  dilutionPercent : ℚ
  primaryProceedsM : ℚ
  secondaryProceedsM : ℚ
  grossProceedsM : ℚ
  marketCapM : ℚ
  postIPOCashM : ℚ
  currentDebtM : ℚ
  enterpriseValueM : ℚ
  oversubscription : ℚ
  effectiveOversubscription : ℚ
  demandLostM : ℚ
  investorsDropping : List String
deriving DecidableEq, Repr

/-- Source: `useDollarBased = primaryDollarRaiseM !== undefined && primaryDollarRaiseM > 0`. -/
def useDollarBased (a : Assumptions) : Bool :=
  match a.primaryDollarRaiseM with
  | some d => decide (0 < d)
  | none => false

/-- The order-book lookup on the already-sorted (descending) tier list:
`find` the first tier with `offerPrice >= entry.priceLevel`; otherwise the
`offerPrice > sorted[0].priceLevel` branch (unreachable, kept from source),
otherwise the lowest tier. An empty book keeps the neutral default `1`. -/
def lookupFromSorted (sorted : List OrderTier) (p : ℚ) : ℚ :=
  match sorted.find? (fun e => decide (e.priceLevel ≤ p)) with
  | some t => t.oversubscription
  | none =>
    match sorted with
    | [] => 1
    | top :: rest =>
      if top.priceLevel < p then top.oversubscription
      else (lastTier top rest).oversubscription

/-- Order-book lookup of `src/unnamed/part_001` lines 616–639: sort the
tiers descending by price level, then look up. -/
def lookupOversub (book : List OrderTier) (p : ℚ) : ℚ :=
  lookupFromSorted (List.insertionSort tierGE book) p

/-- The notable orders dropping at `p`:
`investor.maxPrice && offerPrice > investor.maxPrice` (JS truthiness: the
max price must be present and nonzero). -/
def droppedInvestors (orders : List NotableOrder) (p : ℚ) : List NotableOrder :=
  orders.filter (fun o =>
    match o.maxPrice with
    | some m => decide (m ≠ 0) && decide (m < p)
    | none => false)

/-- One pricing-matrix row of `src/unnamed/part_001` lines 550–820
(numeric fields). -/
def buildRow (a : Assumptions) (offerPrice : ℚ) : Row :=
  let sharesSoldPrimary :=
    if useDollarBased a then (a.primaryDollarRaiseM.getD 0) / offerPrice
    else a.primarySharesOffered
  let sharesSoldSecondary :=
    if useDollarBased a then (a.secondaryDollarRaiseM.getD 0) / offerPrice
    else a.secondarySharesOffered
  let sharesSoldGreenshoe :=
    if useDollarBased a then sharesSoldPrimary * a.greenshoePercent
    else if a.greenshoeShares ≠ 0 then a.greenshoeShares
    else sharesSoldPrimary * a.greenshoePercent
  let totalSharesSold := sharesSoldPrimary + sharesSoldSecondary + sharesSoldGreenshoe
  let dilutiveShares := sharesSoldPrimary + sharesSoldGreenshoe
  let fdSharesPostIPO := a.sharesOutstandingPreIPO + dilutiveShares
  let dilutionPercent := dilutiveShares / fdSharesPostIPO
  let primaryProceedsM := offerPrice * (sharesSoldPrimary + sharesSoldGreenshoe)
  let secondaryProceedsM := offerPrice * sharesSoldSecondary
  let grossProceedsM := primaryProceedsM + secondaryProceedsM
  let marketCapM := fdSharesPostIPO * offerPrice
  let postIPOCashM := a.currentCash + primaryProceedsM
  let currentDebtM := a.currentDebt
  let enterpriseValueM := marketCapM + currentDebtM - postIPOCashM
  let oversubscription := lookupOversub a.orderBook offerPrice
  let dropped := droppedInvestors a.notableOrders offerPrice
  let demandLostM := (dropped.map NotableOrder.indicatedSizeM).sum
  let effectiveOversubscription :=
    if 0 < demandLostM ∧ 0 < grossProceedsM then
      oversubscription * (1 - demandLostM / (grossProceedsM * oversubscription))
    else oversubscription
  { offerPrice := offerPrice
    sharesSoldPrimary := sharesSoldPrimary
    sharesSoldSecondary := sharesSoldSecondary
    sharesSoldGreenshoe := sharesSoldGreenshoe
    totalSharesSold := totalSharesSold
    fdSharesPostIPO := fdSharesPostIPO
    dilutionPercent := dilutionPercent
    primaryProceedsM := primaryProceedsM
    secondaryProceedsM := secondaryProceedsM
    grossProceedsM := grossProceedsM
    marketCapM := marketCapM
    postIPOCashM := postIPOCashM
    currentDebtM := currentDebtM
    enterpriseValueM := enterpriseValueM
    oversubscription := oversubscription
    effectiveOversubscription := effectiveOversubscription
    demandLostM := demandLostM
    investorsDropping := dropped.map NotableOrder.investorName }

/-- Source: `sortedOrderBook.length > 0`. -/
def hasExplicitOrderBook (a : Assumptions) : Bool := !a.orderBook.isEmpty

/-- Source: `sectorMedianFirstDayPop !== undefined || sectorAverageFirstDayPop !== undefined
|| historicalFirstDayPop !== undefined`. -/
def hasUserProvidedPopData (a : Assumptions) : Bool :=
  a.sectorMedianFirstDayPop.isSome || a.sectorAverageFirstDayPop.isSome ||
    a.historicalFirstDayPop.isSome

/-- The book-quality adjustment of `src/unnamed/part_001` lines 681–699:
zero unless sector pop data was provided; inside that guard,
`Math.log(effectiveOversubscription)` when an explicit order book exists and
the effective oversubscription is positive and not exactly 1.  Factored out
of `buildRow` because it is the only real-valued (transcendental) field. -/
noncomputable def bookQualityAdjustment (hasPop hasBook : Bool) (eff : ℚ) : ℝ :=
  if hasPop = true then
    (if hasBook = true ∧ 0 < eff ∧ eff ≠ 1 then Real.log (eff : ℝ) else 0)
  else 0

/-- The `bookQualityAdjustment` field of the row at `p`. -/
noncomputable def rowBookQualityAdjustment (a : Assumptions) (p : ℚ) : ℝ :=
  bookQualityAdjustment (hasUserProvidedPopData a) (hasExplicitOrderBook a)
    ((buildRow a p).effectiveOversubscription)

/-- Source: `indicatedPriceRangeLow` with `undefined ↦ 0` (only read under the
presence guard). -/
def rangeLowVal (a : Assumptions) : ℚ := a.indicatedPriceRangeLow.getD 0

/-- Source: `indicatedPriceRangeHigh` with `undefined ↦ 0`. -/
def rangeHighVal (a : Assumptions) : ℚ := a.indicatedPriceRangeHigh.getD 0

/-- Source: `hasUserProvidedRange = (low !== undefined && low > 0) && (high !== undefined && high > 0)`. -/
def hasUserProvidedRange (a : Assumptions) : Bool :=
  a.indicatedPriceRangeLow.isSome && decide (0 < rangeLowVal a) &&
    a.indicatedPriceRangeHigh.isSome && decide (0 < rangeHighVal a)

/-- Source: `for (let p = minPrice; p <= maxPrice; p += 1) { if (p > 0) pricePoints.push(p) }`. -/
def pricePoints (minPrice maxPrice : ℚ) : List ℚ :=
  if maxPrice < minPrice then []
  else ((List.range (Nat.floor (maxPrice - minPrice) + 1)).map
    (fun i => minPrice + (i : ℚ))).filter (fun p => decide (0 < p))

/-- The numeric fields of the result of `calculateIPOPricing`
(`assumptions`, `rationale` and `memoText` are presentational and omitted;
`warnings` is modelled on the error paths only — the success path
accumulates further presentational strings). -/
structure PricingResult where
  pricingMatrix : List Row
  recommendedRangeLow : ℚ
  recommendedRangeHigh : ℚ
  recommendedPrice : ℚ
  warnings : List String
deriving DecidableEq, Repr

/-- A zero row, standing in for the (unreachable on a non-empty matrix)
`undefined` accesses of the selection fallbacks. -/
def defaultRow : Row :=
  { offerPrice := 0, sharesSoldPrimary := 0, sharesSoldSecondary := 0
    sharesSoldGreenshoe := 0, totalSharesSold := 0, fdSharesPostIPO := 0
    dilutionPercent := 0, primaryProceedsM := 0, secondaryProceedsM := 0
    grossProceedsM := 0, marketCapM := 0, postIPOCashM := 0, currentDebtM := 0
    enterpriseValueM := 0, oversubscription := 0, effectiveOversubscription := 0
    demandLostM := 0, investorsDropping := [] }

/-- Source: `x || y` on an optional numeric value (JS: `undefined` and `0` are falsy). -/
def truthyOr (x : Option ℚ) (y : ℚ) : ℚ :=
  match x with
  | some v => if v ≠ 0 then v else y
  | none => y

/-- Source: `pricingMatrix.find(r => r.offerPrice === rp)`. -/
def findRowAt (matrix : List Row) (rp : ℚ) : Option Row :=
  matrix.find? (fun r => decide (r.offerPrice = rp))

/-- The comparator `(a, b) => b.offerPrice - a.offerPrice` on rows. -/
def rowGE (r s : Row) : Prop := s.offerPrice ≤ r.offerPrice

instance : DecidableRel rowGE := fun r s =>
  inferInstanceAs (Decidable (s.offerPrice ≤ r.offerPrice))

/-- The recommendation selection of `src/unnamed/part_001` lines 822–891:
priority/aggressiveness branches with their found-row fallbacks, then the
minimum-acceptable-price floor. -/
def selectPrice (a : Assumptions) (matrix : List Row) (low high : ℚ) : ℚ :=
  let rangeMidpoint := (low + high) / 2
  let sortedByPrice := List.insertionSort rowGE matrix
  let pair : ℚ × Row :=
    if a.managementPriority = some ManagementPriority.runway_extension then
      let rp := truthyOr a.minAcceptablePrice low
      match findRowAt matrix rp with
      | some r => (rp, r)
      | none => let r := sortedByPrice.getLastD defaultRow; (r.offerPrice, r)
    else if a.pricingAggressiveness = Aggressiveness.maximum then
      match findRowAt matrix high with
      | some r => (high, r)
      | none => let r := sortedByPrice.headD defaultRow; (r.offerPrice, r)
    else if a.pricingAggressiveness = Aggressiveness.conservative then
      match findRowAt matrix low with
      | some r => (low, r)
      | none => let r := sortedByPrice.getLastD defaultRow; (r.offerPrice, r)
    else
      let rp : ℚ := (round rangeMidpoint : ℤ)
      match findRowAt matrix rp with
      | some r => (rp, r)
      | none =>
        let r := sortedByPrice.tail.foldl
          (fun c s =>
            if |s.offerPrice - rangeMidpoint| < |c.offerPrice - rangeMidpoint| then s else c)
          (sortedByPrice.headD defaultRow)
        (r.offerPrice, r)
  let rp := pair.1
  match a.minAcceptablePrice with
  | some m => if m ≠ 0 ∧ rp < m then m else rp
  | none => rp

/-- Source: `calculateIPOPricing` of `src/unnamed/part_001`: the two fail-fast
guards (lines 495–528), then the per-price-point matrix and the
recommendation (`recommendedRangeLow/High` are the user range, lines
894–895). -/
def calculateIPOPricing (a : Assumptions) : PricingResult :=
  if !(hasUserProvidedRange a) then
    { pricingMatrix := []
      recommendedRangeLow := 0
      recommendedRangeHigh := 0
      recommendedPrice := 0
      warnings := ["ERROR: Price range (indicatedPriceRangeLow/High) is REQUIRED - cannot price without user-provided range. Please provide both indicatedPriceRangeLow and indicatedPriceRangeHigh."] }
  else if rangeHighVal a ≤ rangeLowVal a then
    { pricingMatrix := []
      recommendedRangeLow := 0
      recommendedRangeHigh := 0
      recommendedPrice := 0
      warnings := ["ERROR: indicatedPriceRangeHigh must be greater than indicatedPriceRangeLow."] }
  else
    let minPrice := rangeLowVal a
    let maxPrice := rangeHighVal a
    let matrix := (pricePoints minPrice maxPrice).map (buildRow a)
    { pricingMatrix := matrix
      recommendedRangeLow := minPrice
      recommendedRangeHigh := maxPrice
      recommendedPrice := selectPrice a matrix minPrice maxPrice
      warnings := [] }

/-- Lost demand as the specification sentence reads it, for comparison with
the source's truthiness-guarded loop: the sum of the indicated sizes of
every investor whose stated maximum acceptable price is below the candidate
price. -/
def specLostDemand (orders : List NotableOrder) (p : ℚ) : ℚ :=
  ((orders.filter (fun o =>
    match o.maxPrice with
    | some m => decide (m < p)
    | none => false)).map NotableOrder.indicatedSizeM).sum

end P1

namespace Svc

/-! ## `src/server/services/ipoPricingService.ts` — `calculateIPOPricing`

The earlier engine variant.  Its `IPOAssumptions` has no `currentDebt`
field, its per-row enterprise value is `marketCapM - postIPOCashM`, its
order-book lookup extrapolates demand below the lowest tier, and its
book-quality adjustment is piecewise linear in the oversubscription
(computed whether or not an order book was supplied). -/

/-- The numeric fields of `IPOAssumptions` needed by the claims (lines
6–70 of the source; note: no debt field exists in this variant). -/
structure Assumptions where
  sharesOutstandingPreIPO : ℚ
  primarySharesOffered : ℚ
  secondarySharesOffered : ℚ
  greenshoeShares : ℚ
  greenshoePercent : ℚ
  currentCash : ℚ
  orderBook : List OrderTier
deriving DecidableEq, Repr

/-- Source: `actualGreenshoeShares = greenshoeShares || (primarySharesOffered * greenshoePercent)`. -/
def actualGreenshoeShares (a : Assumptions) : ℚ :=
  if a.greenshoeShares ≠ 0 then a.greenshoeShares
  else a.primarySharesOffered * a.greenshoePercent

/-- Source: `totalSharesForProceeds = primary + secondary + actualGreenshoe`. -/
def totalSharesForProceeds (a : Assumptions) : ℚ :=
  a.primarySharesOffered + a.secondarySharesOffered + actualGreenshoeShares a

/-- Source: `fdSharesPostIPO = preIPO + primary + actualGreenshoe`. -/
def fdSharesPostIPO (a : Assumptions) : ℚ :=
  a.sharesOutstandingPreIPO + a.primarySharesOffered + actualGreenshoeShares a

/-- Source: `grossProceedsM = offerPrice * totalSharesForProceeds`. -/
def grossProceedsM (a : Assumptions) (p : ℚ) : ℚ := p * totalSharesForProceeds a

/-- Source: `marketCapM = fdSharesPostIPO * offerPrice`. -/
def marketCapM (a : Assumptions) (p : ℚ) : ℚ := fdSharesPostIPO a * p

/-- Source: `primaryProceeds = offerPrice * (primarySharesOffered + actualGreenshoeShares)`. -/
def primaryProceeds (a : Assumptions) (p : ℚ) : ℚ :=
  p * (a.primarySharesOffered + actualGreenshoeShares a)

/-- Source: `postIPOCashM = currentCash + primaryProceeds`. -/
def postIPOCashM (a : Assumptions) (p : ℚ) : ℚ := a.currentCash + primaryProceeds a p

/-- Line 415: `enterpriseValueM = marketCapM - postIPOCashM` (no debt term
exists in this variant). -/
def enterpriseValueM (a : Assumptions) (p : ℚ) : ℚ := marketCapM a p - postIPOCashM a p

/-- The order-book lookup of lines 432–449: the matching tier if one
exists, and when the resulting value is still the neutral `1`, the
extrapolation `Math.round(lowest.oversubscription * (1 + priceDiff * 0.05))`
below the lowest tier. -/
def oversubscriptionAt (book : List OrderTier) (p : ℚ) : ℚ :=
  let sorted := List.insertionSort tierGE book
  let fromTiers :=
    match sorted.find? (fun e => decide (e.priceLevel ≤ p)) with
    | some t => t.oversubscription
    | none => 1
  match sorted with
  | [] => 1
  | top :: rest =>
    if fromTiers = 1 then
      let lowest := lastTier top rest
      ((round (lowest.oversubscription * (1 + (lowest.priceLevel - p) * (5 / 100))) : ℤ) : ℚ)
    else fromTiers

/-- The book-quality adjustment of lines 456–464: `-3%` per turn of
oversubscription under `5×`, a capped bonus above `20×`, else `0`
(computed unconditionally — even when no order book was supplied the
neutral `oversubscription = 1` feeds it). -/
def bookQualityAdjustment (oversub : ℚ) : ℚ :=
  if oversub < 5 then (5 - oversub) * (-3 / 100)
  else if 20 < oversub then min (1 / 10) ((oversub - 20) * (5 / 1000))
  else 0

end Svc

namespace P2

/-! ## `src/unnamed/part_002` — `calculateIPOPricing`

The earliest engine variant.  Its data model has no cash or debt fields and
its per-row enterprise value is set to the market cap (source lines
337–341: "For simplicity, use market cap as EV approximation"). -/

/-- The share-mechanics fields of its `IPOAssumptions`. -/
structure Assumptions where
  sharesOutstandingPreIPO : ℚ
  primarySharesOffered : ℚ
  secondarySharesOffered : ℚ
  greenshoePercent : ℚ
  underwritingFeePercent : ℚ
deriving DecidableEq, Repr

/-- Source: `greenshoeShares = primarySharesOffered * greenshoePercent`. -/
def greenshoeShares (a : Assumptions) : ℚ := a.primarySharesOffered * a.greenshoePercent

/-- Source: `totalSharesOffered = primary + secondary`. -/
def totalSharesOffered (a : Assumptions) : ℚ :=
  a.primarySharesOffered + a.secondarySharesOffered

/-- Source: `totalSharesWithGreenshoe = totalSharesOffered + greenshoeShares`. -/
def totalSharesWithGreenshoe (a : Assumptions) : ℚ :=
  totalSharesOffered a + greenshoeShares a

/-- Source: `fdSharesPostIPO = preIPO + primary + greenshoeShares`. -/
def fdSharesPostIPO (a : Assumptions) : ℚ :=
  a.sharesOutstandingPreIPO + a.primarySharesOffered + greenshoeShares a

/-- Source: `grossProceeds = totalSharesWithGreenshoe * offerPrice`. -/
def grossProceeds (a : Assumptions) (p : ℚ) : ℚ := totalSharesWithGreenshoe a * p

/-- Source: `marketCap = fdSharesPostIPO * offerPrice`. -/
def marketCap (a : Assumptions) (p : ℚ) : ℚ := fdSharesPostIPO a * p

/-- Line 341: `enterpriseValue = marketCap` — the deliberate approximation
this variant applies in every pricing row. -/
def enterpriseValue (a : Assumptions) (p : ℚ) : ℚ := marketCap a p

/-- Modelled from the source's own comment at lines 338–339 ("Post-IPO cash
= existing cash + primary proceeds (net of fees)"): with no cash field in
this variant's data model, the post-IPO cash the stated EV formula would
subtract is the net primary proceeds. -/
def postIPOCashPerComment (a : Assumptions) (p : ℚ) : ℚ :=
  a.primarySharesOffered * p * (1 - a.underwritingFeePercent)

end P2

namespace P0

/-! ## `src/unnamed/part_000` — the shareholder-structure engine -/

inductive CompanyType where
  | mature | highGrowth | biotech | industrial
deriving DecidableEq, Repr

/-- A pre-IPO shareholder (the `type` tag feeds only the founder-control
warning and is omitted). -/
structure Shareholder where
  name : String
  shares : ℚ
  votingMultiple : Option ℚ
  secondarySalePercent : Option ℚ
deriving DecidableEq, Repr

/-- The fields of `IPOAssumptions` needed by the claims: capital structure,
DCF inputs, IPO mechanics and debt repayment.  (`comparables`,
`pipelineAssets`, `interestRate`, `founderControlMinimum`,
`lockUpPeriodDays` feed only unclaimed branches and are omitted.) -/
structure Assumptions where
  companyType : CompanyType
  preIPOSharesTotal : ℚ
  breakdown : List Shareholder
  currentRevenue : ℚ
  revenueGrowthRates : List ℚ
  currentEBITDA : ℚ
  ebitdaMargin : ℚ
  targetEbitdaMargin : ℚ
  currentCash : ℚ
  currentDebt : ℚ
  taxRate : ℚ
  wacc : ℚ
  terminalGrowthRate : ℚ
  primaryRaiseAmount : ℚ
  secondarySaleShares : ℚ
  greenshoePercent : ℚ
  dualClassShares : Bool
  ipoDiscountPercent : ℚ
  projectionYears : ℕ
  debtRepaymentAmount : ℚ
deriving DecidableEq, Repr

/-- Source: `x || y` on an optional rational (JS: `undefined` and `0` are falsy). -/
def orDefault : Option ℚ → ℚ → ℚ
  | some v, y => if v = 0 then y else v
  | none, y => y

/-- Source: `revenueGrowthRates[i] || revenueGrowthRates[length - 1] || 0.05`. -/
def growthRateAt (rates : List ℚ) (i : ℕ) : ℚ :=
  orDefault (rates.get? i) (orDefault rates.getLast? (1 / 20))

/-- Source: `marginStep = (targetEbitdaMargin - ebitdaMargin) / projectionYears`. -/
def marginStep (a : Assumptions) : ℚ :=
  (a.targetEbitdaMargin - a.ebitdaMargin) / (a.projectionYears : ℚ)

/-- The mature-company FCF projection loop (source lines 422–438):
running revenue, ramped margin, and the accumulated yearly FCF list. -/
def matureProjection (a : Assumptions) : ℚ × ℚ × List ℚ :=
  (List.range a.projectionYears).foldl
    (fun st i =>
      let rev := st.1
      let m := st.2.1
      let acc := st.2.2
      let growthRate := growthRateAt a.revenueGrowthRates i
      let rev2 := rev * (1 + growthRate)
      let m2 := min (m + marginStep a) a.targetEbitdaMargin
      let ebitda := rev2 * m2
      let da := rev2 * (4 / 100)
      let capex := rev2 * (5 / 100)
      let nwcChange := rev2 * growthRate * (10 / 100)
      let fcf := (ebitda - da) * (1 - a.taxRate) + da - capex - nwcChange
      (rev2, m2, acc ++ [fcf]))
    (a.currentRevenue, a.ebitdaMargin, [])

/-- The projected yearly free cash flows. -/
def matureFCF (a : Assumptions) : List ℚ := (matureProjection a).2.2

/-- Lines 441–442: `terminalValue = projectedFCF[last] * (1 + terminalGrowthRate)
/ (wacc - terminalGrowthRate)` — performed with NO guard on the sign or size
of `wacc - terminalGrowthRate`. -/
def terminalValue (a : Assumptions) : ℚ :=
  ((matureFCF a).getLastD 0 * (1 + a.terminalGrowthRate)) /
    (a.wacc - a.terminalGrowthRate)

/-- Lines 445–448: the sum of each year's FCF discounted at `wacc`. -/
def pvFCF (a : Assumptions) : ℚ :=
  (matureFCF a).enum.foldl (fun s x => s + x.2 / (1 + a.wacc) ^ (x.1 + 1)) 0

/-- Lines 449–451: the mature-company DCF enterprise value,
`pvFCF + terminalValue / (1 + wacc) ^ projectionYears`. -/
def matureEnterpriseValue (a : Assumptions) : ℚ :=
  pvFCF a + terminalValue a / (1 + a.wacc) ^ a.projectionYears

/-- Lines 397–407: secondary shares computed from the per-holder
`secondarySalePercent` fractions (`holder.secondarySalePercent &&
holder.secondarySalePercent > 0`). -/
def secondaryCalc (bd : List Shareholder) : ℚ :=
  (bd.map (fun h =>
    match h.secondarySalePercent with
    | some s => if 0 < s then h.shares * s else 0
    | none => 0)).sum

/-- Line 410: use the calculated secondary shares if any, else the directly
specified total. -/
def secondaryShares (a : Assumptions) : ℚ :=
  if 0 < secondaryCalc a.breakdown then secondaryCalc a.breakdown
  else a.secondarySaleShares

/-- Source: `underwritingDiscount = 0.07`. -/
def underwritingDiscount : ℚ := 7 / 100

/-- Source: `primarySharesAtMid = primaryRaiseAmount / midPrice`.  The mid price is
computed upstream by the valuation stage; all share-mechanics definitions
below take it as a parameter, so every statement about them holds in
particular at the computed value. -/
def primarySharesAtMid (a : Assumptions) (mid : ℚ) : ℚ := a.primaryRaiseAmount / mid

/-- Source: `totalOfferingShares = primarySharesAtMid + secondarySaleShares`. -/
def totalOfferingShares (a : Assumptions) (mid : ℚ) : ℚ :=
  primarySharesAtMid a mid + secondaryShares a

/-- Source: `greenshoeShares = totalOfferingShares * greenshoePercent`. -/
def greenshoeShares (a : Assumptions) (mid : ℚ) : ℚ :=
  totalOfferingShares a mid * a.greenshoePercent

/-- Source: `postIPOShares = preIPO total + primarySharesAtMid + greenshoeShares`. -/
def postIPOShares (a : Assumptions) (mid : ℚ) : ℚ :=
  a.preIPOSharesTotal + primarySharesAtMid a mid + greenshoeShares a mid

/-- Source: `publicFloat = primarySharesAtMid + secondarySaleShares + greenshoeShares`. -/
def publicFloat (a : Assumptions) (mid : ℚ) : ℚ :=
  primarySharesAtMid a mid + secondaryShares a + greenshoeShares a mid

/-- Source: `grossPrimaryProceeds = primarySharesAtMid * midPrice`. -/
def grossPrimaryProceeds (a : Assumptions) (mid : ℚ) : ℚ :=
  primarySharesAtMid a mid * mid

/-- Source: `netPrimaryProceeds = grossPrimaryProceeds * (1 - underwritingDiscount)`. -/
def netPrimaryProceeds (a : Assumptions) (mid : ℚ) : ℚ :=
  grossPrimaryProceeds a mid * (1 - underwritingDiscount)

/-- Source: `greenshoeProceeds = greenshoeShares * midPrice * (1 - underwritingDiscount)`. -/
def greenshoeProceeds (a : Assumptions) (mid : ℚ) : ℚ :=
  greenshoeShares a mid * mid * (1 - underwritingDiscount)

/-- Line 644: `postIPOCash = currentCash + netPrimaryProceeds +
greenshoeProceeds - debtRepaymentAmount` — the full repayment amount is
subtracted from cash. -/
def postIPOCash (a : Assumptions) (mid : ℚ) : ℚ :=
  a.currentCash + netPrimaryProceeds a mid + greenshoeProceeds a mid -
    a.debtRepaymentAmount

/-- Line 645: `postIPODebt = Math.max(0, currentDebt - debtRepaymentAmount)`. -/
def postIPODebt (a : Assumptions) : ℚ := max 0 (a.currentDebt - a.debtRepaymentAmount)

/-- Source: `marketCap = postIPOShares * midPrice`. -/
def marketCap (a : Assumptions) (mid : ℚ) : ℚ := postIPOShares a mid * mid

/-- Line 647: `postIPOEnterpriseValue = marketCap + postIPODebt - postIPOCash`. -/
def postIPOEnterpriseValue (a : Assumptions) (mid : ℚ) : ℚ :=
  marketCap a mid + postIPODebt a - postIPOCash a mid

/-- Source: `dualClassShares && holder.votingMultiple ? holder.votingMultiple : 1`. -/
def votingWeight (a : Assumptions) (h : Shareholder) : ℚ :=
  if a.dualClassShares then
    match h.votingMultiple with
    | some v => if v ≠ 0 then v else 1
    | none => 1
  else 1

/-- Source: `holder.secondarySalePercent ? holder.shares * holder.secondarySalePercent : 0`. -/
def holderSecondarySale (h : Shareholder) : ℚ :=
  match h.secondarySalePercent with
  | some s => if s ≠ 0 then h.shares * s else 0
  | none => 0

/-- Source: `postIPOHolderShares = holder.shares - holdersSecondarySale`. -/
def postIPOHolderShares (h : Shareholder) : ℚ := h.shares - holderSecondarySale h

/-- Lines 663–671: the voting-power denominator,
`Σ (post-IPO holder shares × voting weight) + publicFloat × 1`. -/
def totalVotingShares (a : Assumptions) (mid : ℚ) : ℚ :=
  (a.breakdown.map (fun h => postIPOHolderShares h * votingWeight a h)).sum +
    publicFloat a mid * 1

/-- One row of the ownership table. -/
structure OwnershipEntry where
  name : String
  preIPOShares : ℚ
  preIPOPercent : ℚ
  postIPOShares : ℚ
  postIPOPercent : ℚ
  votingPercent : ℚ
deriving DecidableEq, Repr

/-- Lines 673–692: the per-holder ownership rows. -/
def holderEntry (a : Assumptions) (mid : ℚ) (h : Shareholder) : OwnershipEntry :=
  { name := h.name
    preIPOShares := h.shares
    preIPOPercent := h.shares / a.preIPOSharesTotal * 100
    postIPOShares := postIPOHolderShares h
    postIPOPercent := postIPOHolderShares h / postIPOShares a mid * 100
    votingPercent := postIPOHolderShares h * votingWeight a h / totalVotingShares a mid * 100 }

/-- Lines 694–703: the appended synthetic "Public Shareholders" row. -/
def publicRow (a : Assumptions) (mid : ℚ) : OwnershipEntry :=
  { name := "Public Shareholders"
    preIPOShares := 0
    preIPOPercent := 0
    postIPOShares := publicFloat a mid
    postIPOPercent := publicFloat a mid / postIPOShares a mid * 100
    votingPercent := publicFloat a mid * 1 / totalVotingShares a mid * 100 }

/-- The full ownership table: per-holder rows plus the public row. -/
def ownershipTable (a : Assumptions) (mid : ℚ) : List OwnershipEntry :=
  a.breakdown.map (holderEntry a mid) ++ [publicRow a mid]

/-- Source: `(primaryShares + secondarySaleShares) * greenshoePercent` inside
`createScenario`. -/
def scenarioGreenshoe (a : Assumptions) (primaryShares : ℚ) : ℚ :=
  (primaryShares + secondaryShares a) * a.greenshoePercent

/-- Line 774: `postDebt = Math.max(0, currentDebt - debtRepaymentAmount)`
inside `createScenario`. -/
def scenarioPostDebt (a : Assumptions) : ℚ :=
  max 0 (a.currentDebt - a.debtRepaymentAmount)

/-- Line 773: `postCash = currentCash + netProceeds + scenarioGreenshoeProceeds
- debtRepaymentAmount` inside `createScenario`. -/
def scenarioPostCash (a : Assumptions) (price primaryShares : ℚ) : ℚ :=
  a.currentCash + primaryShares * price * (1 - underwritingDiscount) +
    scenarioGreenshoe a primaryShares * price * (1 - underwritingDiscount) -
    a.debtRepaymentAmount

/-- The numeric fields of one pricing-matrix scenario row (the multiples,
founder ownership and day-one pop feed only unclaimed outputs and are
omitted). -/
structure ScenarioRow where
  scenario : String
  offerPrice : ℚ
  primaryShares : ℚ
  marketCap : ℚ
  enterpriseValue : ℚ
  dilution : ℚ
deriving DecidableEq, Repr

/-- Lines 766–793: `createScenario`. -/
def createScenario (a : Assumptions) (name : String) (price primaryShares : ℚ) :
    ScenarioRow :=
  let scenarioGS := scenarioGreenshoe a primaryShares
  let scenarioNewShares := primaryShares + scenarioGS
  let postShares := a.preIPOSharesTotal + scenarioNewShares
  let mktCap := postShares * price
  { scenario := name
    offerPrice := price
    primaryShares := primaryShares
    marketCap := mktCap
    enterpriseValue := mktCap + scenarioPostDebt a - scenarioPostCash a price primaryShares
    dilution := scenarioNewShares / (a.preIPOSharesTotal + scenarioNewShares) * 100 }

end P0

/-! ## Concrete inputs used by the witnesses and counterexamples -/

/-- A neutral `P1` input: every numeric field zero, every optional field
absent, moderate aggressiveness. -/
def zeroP1 : P1.Assumptions :=
  { sharesOutstandingPreIPO := 0, primarySharesOffered := 0
    secondarySharesOffered := 0, greenshoeShares := 0, greenshoePercent := 0
    primaryDollarRaiseM := none, secondaryDollarRaiseM := none
    indicatedPriceRangeLow := none, indicatedPriceRangeHigh := none
    currentCash := 0, currentDebt := 0, orderBook := [], notableOrders := []
    sectorMedianFirstDayPop := none, sectorAverageFirstDayPop := none
    historicalFirstDayPop := none
    pricingAggressiveness := P1.Aggressiveness.moderate
    managementPriority := none, minAcceptablePrice := none }

/-- An input with no `indicatedPriceRangeLow` (the absent-range case). -/
def c1Input : P1.Assumptions := { zeroP1 with indicatedPriceRangeHigh := some 20 }

/-- An input with 100M pre-IPO shares, 10M primary, a $25+ 2× order book
and one $10,000M notable order capped at $28. -/
def c6WitnessInput : P1.Assumptions :=
  { zeroP1 with
    sharesOutstandingPreIPO := 100, primarySharesOffered := 10
    orderBook := [⟨25, 2⟩]
    notableOrders := [⟨"Anchor Fund", 10000, some 28⟩] }

/-- A notable order whose stated maximum acceptable price is exactly 0. -/
def c6CounterInput : P1.Assumptions :=
  { zeroP1 with
    primarySharesOffered := 10
    notableOrders := [⟨"Zero Max Fund", 50, some 0⟩] }

/-- Scenario A of the specification: 100M pre-IPO shares, a $200M
dollar-denominated primary raise, no greenshoe. -/
def c7Input : P1.Assumptions :=
  { zeroP1 with sharesOutstandingPreIPO := 100, primaryDollarRaiseM := some 200 }

/-- An order book (one $25+ 10× tier) together with sector benchmark data. -/
def c8WitnessInput : P1.Assumptions :=
  { zeroP1 with
    sharesOutstandingPreIPO := 100, primarySharesOffered := 10
    orderBook := [⟨25, 10⟩]
    sectorMedianFirstDayPop := some (1 / 5) }

/-- A share-denominated offering: 10M primary, 2M secondary, 1M greenshoe. -/
def c9ShareInput : P1.Assumptions :=
  { zeroP1 with
    sharesOutstandingPreIPO := 100, primarySharesOffered := 10
    secondarySharesOffered := 2, greenshoeShares := 1 }

/-- A dollar-denominated offering: $200M primary, $50M secondary, 15%
greenshoe. -/
def c9DollarInput : P1.Assumptions :=
  { zeroP1 with
    sharesOutstandingPreIPO := 100, primaryDollarRaiseM := some 200
    secondaryDollarRaiseM := some 50, greenshoePercent := 3 / 20 }

/-- A `P2` input: 100M pre-IPO shares, 10M primary, 7% underwriting fee. -/
def c2Input : P2.Assumptions :=
  { sharesOutstandingPreIPO := 100, primarySharesOffered := 10
    secondarySharesOffered := 0, greenshoePercent := 0
    underwritingFeePercent := 7 / 100 }

/-- A neutral `P0` input: every numeric field zero, mature classification. -/
def zeroP0 : P0.Assumptions :=
  { companyType := P0.CompanyType.mature, preIPOSharesTotal := 0, breakdown := []
    currentRevenue := 0, revenueGrowthRates := [], currentEBITDA := 0
    ebitdaMargin := 0, targetEbitdaMargin := 0, currentCash := 0, currentDebt := 0
    taxRate := 0, wacc := 0, terminalGrowthRate := 0, primaryRaiseAmount := 0
    secondarySaleShares := 0, greenshoePercent := 0, dualClassShares := false
    ipoDiscountPercent := 0, projectionYears := 0, debtRepaymentAmount := 0 }

/-- A mature company whose discount rate (2%) is BELOW its terminal growth
rate (3%): one projection year, $100M revenue growing 10%, 30% margin,
zero taxes. -/
def c3Input : P0.Assumptions :=
  { zeroP0 with
    currentRevenue := 100, revenueGrowthRates := [1 / 10]
    ebitdaMargin := 3 / 10, targetEbitdaMargin := 3 / 10
    wacc := 1 / 50, terminalGrowthRate := 3 / 100, projectionYears := 1 }

/-- A directly specified secondary total (8M) with NO per-holder
secondary-sale fractions; $200M primary raise, no greenshoe. -/
def c4CounterInput : P0.Assumptions :=
  { zeroP0 with
    preIPOSharesTotal := 100
    breakdown := [⟨"Founder A", 100, none, none⟩]
    primaryRaiseAmount := 200
    secondarySaleShares := 8 }

/-- A per-holder secondary sale: Series A sells 40% of its 20M position
(Scenario B of the specification); $200M primary raise, no greenshoe. -/
def c4WitnessInput : P0.Assumptions :=
  { zeroP0 with
    preIPOSharesTotal := 100
    breakdown := [⟨"Founder", 80, none, none⟩, ⟨"Series A", 20, none, some (2 / 5)⟩]
    primaryRaiseAmount := 200 }

/-- A debt repayment (150) exceeding current debt (100), with $50M cash and
a $200M primary raise. -/
def c10Input : P0.Assumptions :=
  { zeroP0 with
    currentCash := 50, currentDebt := 100, debtRepaymentAmount := 150
    primaryRaiseAmount := 200 }

/-! ## Helper lemmas -/

/-- Summing `f x / P * c` over a list factors through the sum of `f`. -/
theorem list_sum_map_div_mul {α : Type} (l : List α) (f : α → ℚ) (P c : ℚ) :
    (l.map (fun x => f x / P * c)).sum = (l.map f).sum / P * c := by
  induction l with
  | nil => simp
  | cons a t ih => simp only [List.map_cons, List.sum_cons, ih]; ring

/-- Summing a pointwise difference over a list. -/
theorem list_sum_map_sub {α : Type} (l : List α) (f g : α → ℚ) :
    (l.map (fun x => f x - g x)).sum = (l.map f).sum - (l.map g).sum := by
  induction l with
  | nil => simp
  | cons a t ih => simp only [List.map_cons, List.sum_cons, ih]; ring

/-- When a holder's secondary-sale fraction is non-negative, the
ownership-table reduction (`sp ? shares * sp : 0`) agrees with the
secondary-share calculation term (`sp && sp > 0 ? shares * sp : 0`). -/
theorem holderSecondarySale_eq_calcTerm (x : P0.Shareholder)
    (h : 0 ≤ x.secondarySalePercent.getD 0) :
    P0.holderSecondarySale x =
      (match x.secondarySalePercent with
       | some s => if 0 < s then x.shares * s else 0
       | none => 0) := by
  unfold P0.holderSecondarySale
  cases hx : x.secondarySalePercent with
  | none => rfl
  | some s =>
    rw [hx] at h
    simp only [Option.getD_some] at h
    by_cases hs : s = 0
    · simp [hs]
    · simp [hs, lt_of_le_of_ne h (Ne.symm hs)]

/-- Under non-negative fractions, the summed per-holder reductions equal
`secondaryCalc`. -/
theorem sum_holderSecondarySale_eq (l : List P0.Shareholder)
    (h : ∀ x ∈ l, 0 ≤ x.secondarySalePercent.getD 0) :
    (l.map P0.holderSecondarySale).sum = P0.secondaryCalc l := by
  unfold P0.secondaryCalc
  congr 1
  exact List.map_congr_left (fun x hx => holderSecondarySale_eq_calcTerm x (h x hx))

/-- Source: `secondaryCalc` is non-negative when share counts are. -/
theorem secondaryCalc_nonneg (l : List P0.Shareholder)
    (hs : ∀ x ∈ l, 0 ≤ x.shares) : 0 ≤ P0.secondaryCalc l := by
  unfold P0.secondaryCalc
  apply List.sum_nonneg
  intro q hq
  rw [List.mem_map] at hq
  obtain ⟨x, hx, rfl⟩ := hq
  cases x.secondarySalePercent with
  | none => exact le_refl 0
  | some s =>
    by_cases h0 : 0 < s
    · simpa [h0] using mul_nonneg (hs x hx) (le_of_lt h0)
    · simp [h0]

/-- The closing arithmetic of the ownership-sum invariant. -/
theorem ownership_sum_arith (T C Pm G P : ℚ) (hP : P = T + Pm + G) (h0 : P ≠ 0) :
    (T - C) / P * 100 + (Pm + C + G) / P * 100 = 100 := by
  subst hP
  field_simp
  ring

/-- On a descending-sorted tier list, a successful `find?` of the first
tier at or below the candidate price returns the HIGHEST such tier. -/
theorem find_tier_max (p : ℚ) :
    ∀ (l : List OrderTier), List.Sorted tierGE l → ∀ t : OrderTier,
      l.find? (fun e => decide (e.priceLevel ≤ p)) = some t →
      t ∈ l ∧ t.priceLevel ≤ p ∧
        ∀ u ∈ l, u.priceLevel ≤ p → u.priceLevel ≤ t.priceLevel
  | [], _, t, h => by simp at h
  | a :: l, hs, t, h => by
    by_cases ha : a.priceLevel ≤ p
    · rw [List.find?_cons_of_pos _ (by simpa using ha)] at h
      obtain rfl : a = t := by simpa using h
      refine ⟨List.mem_cons_self a l, ha, ?_⟩
      intro u hu _
      rcases List.mem_cons.mp hu with rfl | hu
      · exact le_refl _
      · exact List.rel_of_sorted_cons hs u hu
    · rw [List.find?_cons_of_neg _ (by simpa using ha)] at h
      obtain ⟨hmem, htp, hmax⟩ := find_tier_max p l hs.of_cons t h
      refine ⟨List.mem_cons_of_mem a hmem, htp, ?_⟩
      intro u hu hup
      rcases List.mem_cons.mp hu with rfl | hu
      · exact absurd hup ha
      · exact hmax u hu hup

/-- The last tier of a non-empty list is a member of it. -/
theorem lastTier_mem : ∀ (a : OrderTier) (l : List OrderTier), lastTier a l ∈ a :: l
  | a, [] => List.mem_cons_self a []
  | a, b :: l => List.mem_cons_of_mem a (lastTier_mem b l)

/-- On a descending-sorted list, the last tier has the minimal price level. -/
theorem lastTier_min : ∀ (a : OrderTier) (l : List OrderTier),
    List.Sorted tierGE (a :: l) → ∀ u ∈ a :: l, (lastTier a l).priceLevel ≤ u.priceLevel
  | a, [], _, u, hu => by
    rcases List.mem_cons.mp hu with rfl | hu
    · exact le_refl _
    · simp at hu
  | a, b :: l, hs, u, hu => by
    rcases List.mem_cons.mp hu with rfl | hu
    · have hm : lastTier b l ∈ b :: l := lastTier_mem b l
      exact List.rel_of_sorted_cons hs _ hm
    · exact lastTier_min b l hs.of_cons u hu

/-- The semantics of the part_001 order-book lookup on an already-sorted
non-empty tier list: it returns the value of a member tier which is the
highest tier at or below the candidate when one exists, and the lowest
tier when the candidate is below every tier. -/
theorem lookupFromSorted_spec (l : List OrderTier) (p : ℚ)
    (hs : List.Sorted tierGE l) (hne : l ≠ []) :
    ∃ t, t ∈ l ∧ P1.lookupFromSorted l p = t.oversubscription ∧
      (t.priceLevel ≤ p → ∀ u ∈ l, u.priceLevel ≤ p → u.priceLevel ≤ t.priceLevel) ∧
      (p < t.priceLevel → ∀ u ∈ l, t.priceLevel ≤ u.priceLevel) := by
  cases hfind : l.find? (fun e => decide (e.priceLevel ≤ p)) with
  | some t =>
    obtain ⟨hmem, htp, hmax⟩ := find_tier_max p l hs t hfind
    refine ⟨t, hmem, ?_, fun _ => hmax, fun hlt => absurd htp (not_le.mpr hlt)⟩
    simp only [P1.lookupFromSorted, hfind]
  | none =>
    have hall : ∀ u ∈ l, p < u.priceLevel := by
      intro u hu
      have h2 := List.find?_eq_none.mp hfind u hu
      simpa using not_le.mp (by simpa using h2)
    cases l with
    | nil => exact absurd rfl hne
    | cons top rest =>
      refine ⟨lastTier top rest, lastTier_mem top rest, ?_, ?_, fun _ => lastTier_min top rest hs⟩
      · simp only [P1.lookupFromSorted, hfind]
        rw [if_neg (asymm (hall top (List.mem_cons_self top rest)))]
      · intro hle
        exact absurd hle (not_le.mpr (hall _ (lastTier_mem top rest)))

/-- A positive dollar raise follows from the `useDollarBased` guard. -/
theorem useDollarBased_pos (a : P1.Assumptions) (h : P1.useDollarBased a = true) :
    0 < a.primaryDollarRaiseM.getD 0 := by
  unfold P1.useDollarBased at h
  cases hd : a.primaryDollarRaiseM with
  | none => rw [hd] at h; simp at h
  | some d => rw [hd] at h; simpa using of_decide_eq_true h

/-- The `effectiveOversubscription` field of a row, unfolded. -/
theorem buildRow_eff_eq (a : P1.Assumptions) (p : ℚ) :
    (P1.buildRow a p).effectiveOversubscription =
      (if 0 < (P1.buildRow a p).demandLostM ∧ 0 < (P1.buildRow a p).grossProceedsM then
        (P1.buildRow a p).oversubscription *
          (1 - (P1.buildRow a p).demandLostM /
            ((P1.buildRow a p).grossProceedsM * (P1.buildRow a p).oversubscription))
      else (P1.buildRow a p).oversubscription) := rfl

/-! ## Claim theorems -/

/-- C1: For every input in which the indicated price range is absent,
non-positive, or has high ≤ low, `calculateIPOPricing` (part_001) returns a
structured result whose `pricingMatrix` is empty and whose `warnings` carry
a descriptive error, with no substitute range fabricated (the recommended
price and range are zero).  The embedded function is total, so no exception
is possible. -/
theorem c1_confirmed (a : P1.Assumptions)
    (h : P1.hasUserProvidedRange a = false ∨ P1.rangeHighVal a ≤ P1.rangeLowVal a) :
    (P1.calculateIPOPricing a).pricingMatrix = [] ∧
    (P1.calculateIPOPricing a).warnings ≠ [] ∧
    (P1.calculateIPOPricing a).recommendedPrice = 0 ∧
    (P1.calculateIPOPricing a).recommendedRangeLow = 0 ∧
    (P1.calculateIPOPricing a).recommendedRangeHigh = 0 := by
  by_cases hr : P1.hasUserProvidedRange a = true
  · have hle : P1.rangeHighVal a ≤ P1.rangeLowVal a := by
      rcases h with h | h
      · rw [hr] at h; exact absurd h (by simp)
      · exact h
    simp [P1.calculateIPOPricing, hr, hle]
  · have hr2 : P1.hasUserProvidedRange a = false := by
      cases hx : P1.hasUserProvidedRange a
      · rfl
      · exact absurd hx hr
    simp [P1.calculateIPOPricing, hr2]

/-- C1 witness: the guard fires at the concrete input with no
`indicatedPriceRangeLow`. -/
theorem c1_witness :
    (P1.calculateIPOPricing c1Input).pricingMatrix = [] ∧
    (P1.calculateIPOPricing c1Input).warnings ≠ [] ∧
    (P1.calculateIPOPricing c1Input).recommendedPrice = 0 ∧
    (P1.calculateIPOPricing c1Input).recommendedRangeLow = 0 ∧
    (P1.calculateIPOPricing c1Input).recommendedRangeHigh = 0 :=
  c1_confirmed c1Input (Or.inl (by simp [P1.hasUserProvidedRange, c1Input, zeroP1]))

/-- C2 (amended): enterprise value equals market capitalization plus debt
minus (post-IPO) cash in the part_001 engine, the ipoPricingService engine
(whose data model has no debt, i.e. debt = 0), and the part_000 engine
(both the post-IPO result field and every scenario row) — while the
part_002 variant instead reports enterprise value equal to the market cap
in every pricing row, with no cash or debt adjustment. -/
theorem c2_corrected (a1 : P1.Assumptions) (s : Svc.Assumptions)
    (a0 : P0.Assumptions) (a2 : P2.Assumptions) (p mid price prim : ℚ)
    (name : String) :
    (P1.buildRow a1 p).enterpriseValueM =
      (P1.buildRow a1 p).marketCapM + a1.currentDebt - (P1.buildRow a1 p).postIPOCashM ∧
    Svc.enterpriseValueM s p = Svc.marketCapM s p + 0 - Svc.postIPOCashM s p ∧
    P0.postIPOEnterpriseValue a0 mid =
      P0.marketCap a0 mid + P0.postIPODebt a0 - P0.postIPOCash a0 mid ∧
    (P0.createScenario a0 name price prim).enterpriseValue =
      (P0.createScenario a0 name price prim).marketCap + P0.scenarioPostDebt a0 -
        P0.scenarioPostCash a0 price prim ∧
    P2.enterpriseValue a2 price = P2.marketCap a2 price := by
  refine ⟨rfl, ?_, rfl, rfl, rfl⟩
  unfold Svc.enterpriseValueM
  rw [add_zero]

/-- C2 counterexample: in the part_002 engine, at 100M pre-IPO shares, 10M
primary shares, no greenshoe, a 7% fee and a $20 offer price, the reported
enterprise value is the $2,200M market cap, whereas market cap + debt −
cash (debt absent, cash per the source's own comment "existing cash +
primary proceeds (net of fees)") is $2,014M. -/
theorem c2_counterexample :
    P2.enterpriseValue c2Input 20 = 2200 ∧
    P2.marketCap c2Input 20 + 0 - P2.postIPOCashPerComment c2Input 20 = 2014 ∧
    (2200 : ℚ) ≠ 2014 := by
  refine ⟨?_, ?_, by norm_num⟩
  · norm_num [P2.enterpriseValue, P2.marketCap, P2.fdSharesPostIPO, P2.greenshoeShares, c2Input]
  · norm_num [P2.marketCap, P2.fdSharesPostIPO, P2.greenshoeShares,
      P2.postIPOCashPerComment, c2Input]

/-- C3: the mature-company DCF of part_000 performs the Gordon-growth
terminal-value division with NO guard on `wacc - terminalGrowthRate`.  At
the concrete input below the discount rate (2%) is below the terminal
growth rate (3%); the code silently divides by the negative denominator,
producing a negative terminal value and a negative enterprise value instead
of the refused, structured error result the claim requires (the part_000
engine has no error path at all). -/
theorem c3_code_bug :
    c3Input.wacc ≤ c3Input.terminalGrowthRate ∧
    P0.terminalValue c3Input = -(13596 / 5) ∧
    P0.matureEnterpriseValue c3Input = -2640 ∧
    P0.matureEnterpriseValue c3Input < 0 := by
  have ht : P0.terminalValue c3Input = -(13596 / 5) := by
    norm_num [P0.terminalValue, P0.matureFCF, P0.matureProjection, P0.growthRateAt,
      P0.orDefault, P0.marginStep, c3Input, zeroP0, List.range_succ]
  have hev : P0.matureEnterpriseValue c3Input = -2640 := by
    unfold P0.matureEnterpriseValue
    rw [ht]
    norm_num [P0.pvFCF, P0.matureFCF, P0.matureProjection, P0.growthRateAt,
      P0.orDefault, P0.marginStep, c3Input, zeroP0, List.range_succ]
  refine ⟨by norm_num [c3Input, zeroP0], ht, hev, by rw [hev]; norm_num⟩

/-- C4 (amended): for every computed ownership table whose per-holder
breakdown sums to the pre-IPO total, with non-negative share counts and
secondary-sale fractions, and whose secondary sale is given as per-holder
fractions (or whose directly specified total is zero), the post-IPO
ownership percentages across all holders plus the appended synthetic
public-shareholders row sum to exactly 100 (hence within the claimed 0.5 pp
tolerance).  When a positive direct total is specified without per-holder
fractions the sum instead EXCEEDS 100 (see the counterexample): the
holders' rows are not reduced while the public float still includes the
secondary shares, and the engine emits its ownership-sum warning. -/
theorem c4_corrected (a : P0.Assumptions) (mid : ℚ)
    (hshares : ∀ h ∈ a.breakdown, 0 ≤ h.shares)
    (hsp : ∀ h ∈ a.breakdown, 0 ≤ h.secondarySalePercent.getD 0)
    (hsum : (a.breakdown.map P0.Shareholder.shares).sum = a.preIPOSharesTotal)
    (hsec : 0 < P0.secondaryCalc a.breakdown ∨ a.secondarySaleShares = 0)
    (hpos : P0.postIPOShares a mid ≠ 0) :
    ((P0.ownershipTable a mid).map P0.OwnershipEntry.postIPOPercent).sum = 100 := by
  have hnn := secondaryCalc_nonneg a.breakdown hshares
  have husedC : P0.secondaryShares a = P0.secondaryCalc a.breakdown := by
    unfold P0.secondaryShares
    rcases hsec with h | h
    · rw [if_pos h]
    · by_cases hc : 0 < P0.secondaryCalc a.breakdown
      · rw [if_pos hc]
      · rw [if_neg hc, h]
        exact le_antisymm hnn (not_lt.mp hc)
  have hred : (a.breakdown.map P0.postIPOHolderShares).sum
      = a.preIPOSharesTotal - P0.secondaryCalc a.breakdown := by
    have h2 : a.breakdown.map P0.postIPOHolderShares
        = a.breakdown.map (fun x => x.shares - P0.holderSecondarySale x) :=
      List.map_congr_left (fun x _ => rfl)
    rw [h2, list_sum_map_sub a.breakdown (fun x => x.shares) P0.holderSecondarySale,
      sum_holderSecondarySale_eq a.breakdown hsp,
      show (a.breakdown.map (fun x => x.shares)).sum = a.preIPOSharesTotal from hsum]
  unfold P0.ownershipTable
  rw [List.map_append, List.sum_append]
  have hmm : (a.breakdown.map (P0.holderEntry a mid)).map P0.OwnershipEntry.postIPOPercent
      = a.breakdown.map
        (fun h => P0.postIPOHolderShares h / P0.postIPOShares a mid * 100) := by
    rw [List.map_map]
    exact List.map_congr_left (fun x _ => rfl)
  rw [hmm, list_sum_map_div_mul a.breakdown P0.postIPOHolderShares
    (P0.postIPOShares a mid) 100, hred]
  show (a.preIPOSharesTotal - P0.secondaryCalc a.breakdown) /
      P0.postIPOShares a mid * 100 +
      (P0.publicFloat a mid / P0.postIPOShares a mid * 100 + 0) = 100
  rw [add_zero,
    show P0.publicFloat a mid = P0.primarySharesAtMid a mid + P0.secondaryShares a +
      P0.greenshoeShares a mid from rfl, husedC]
  exact ownership_sum_arith a.preIPOSharesTotal (P0.secondaryCalc a.breakdown)
    (P0.primarySharesAtMid a mid) (P0.greenshoeShares a mid)
    (P0.postIPOShares a mid) rfl hpos

/-- C4 witness: Scenario B — Series A sells 40% of its 20M position (8M
secondary shares), $200M primary at $20, and the table sums to exactly 100. -/
theorem c4_witness :
    ((P0.ownershipTable c4WitnessInput 20).map P0.OwnershipEntry.postIPOPercent).sum = 100 :=
  c4_corrected c4WitnessInput 20
    (by norm_num [c4WitnessInput, zeroP0, List.forall_mem_cons])
    (by norm_num [c4WitnessInput, zeroP0, List.forall_mem_cons])
    (by norm_num [c4WitnessInput, zeroP0])
    (Or.inl (by norm_num [P0.secondaryCalc, c4WitnessInput, zeroP0]))
    (by norm_num [P0.postIPOShares, P0.primarySharesAtMid, P0.greenshoeShares,
      P0.totalOfferingShares, P0.secondaryShares, P0.secondaryCalc, c4WitnessInput, zeroP0])

/-- C4 counterexample: with a directly specified secondary total of 8M and
no per-holder fractions (100M pre-IPO in one holding, $200M primary at
$20, no greenshoe), the ownership table sums to 1180/11 ≈ 107.3 — more
than 0.5 pp above 100, refuting the claim for direct totals. -/
theorem c4_counterexample :
    ((P0.ownershipTable c4CounterInput 20).map P0.OwnershipEntry.postIPOPercent).sum
      = 1180 / 11 ∧
    ¬ |(1180 / 11 : ℚ) - 100| ≤ 1 / 2 := by
  constructor
  · norm_num [P0.ownershipTable, P0.holderEntry, P0.publicRow, P0.postIPOHolderShares,
      P0.holderSecondarySale, P0.postIPOShares, P0.publicFloat, P0.primarySharesAtMid,
      P0.greenshoeShares, P0.totalOfferingShares, P0.secondaryShares, P0.secondaryCalc,
      c4CounterInput, zeroP0]
  · intro hle
    rw [show (1180 / 11 : ℚ) - 100 = 80 / 11 by norm_num,
      abs_of_pos (by norm_num : (0 : ℚ) < 80 / 11)] at hle
    norm_num at hle

/-- C5 (amended): in the part_001 engine, for every candidate price and
every non-empty order book the demand lookup returns the oversubscription
of a tier of the book which, whenever some tier's level is at or below the
candidate, is the HIGHEST such tier (so a candidate above every tier gets
the highest tier's value), and otherwise (candidate below every tier) is
the LOWEST tier — never an interpolated or extrapolated value.  (The
`buildRow` oversubscription field is this lookup by definition.)  The
ipoPricingService variant instead extrapolates below the lowest tier — see
the counterexample. -/
theorem c5_corrected (book : List OrderTier) (p : ℚ) (hne : book ≠ []) :
    ∃ t, t ∈ book ∧ P1.lookupOversub book p = t.oversubscription ∧
      (t.priceLevel ≤ p → ∀ u ∈ book, u.priceLevel ≤ p → u.priceLevel ≤ t.priceLevel) ∧
      (p < t.priceLevel → ∀ u ∈ book, t.priceLevel ≤ u.priceLevel) := by
  have hsort := List.sorted_insertionSort tierGE book
  have hne2 : List.insertionSort tierGE book ≠ [] := by
    intro h0
    apply hne
    have hl := congrArg List.length h0
    rw [List.length_insertionSort] at hl
    exact List.length_eq_zero.mp hl
  obtain ⟨t, htmem, heq, h1, h2⟩ := lookupFromSorted_spec _ p hsort hne2
  refine ⟨t, (List.mem_insertionSort tierGE).mp htmem, heq, ?_, ?_⟩
  · intro htp u hu hup
    exact h1 htp u ((List.mem_insertionSort tierGE).mpr hu) hup
  · intro htp u hu
    exact h2 htp u ((List.mem_insertionSort tierGE).mpr hu)

/-- C5 witness: Scenario C — with tiers `{$30: 5×, $25: 10×}` an offer
price of 27 matches the `$25+` tier and yields `10×`; the general lookup
property instantiated at the same book. -/
theorem c5_witness :
    P1.lookupOversub [⟨30, 5⟩, ⟨25, 10⟩] 27 = 10 ∧
    (∃ t, t ∈ [(⟨30, 5⟩ : OrderTier), ⟨25, 10⟩] ∧
      P1.lookupOversub [⟨30, 5⟩, ⟨25, 10⟩] 27 = t.oversubscription ∧
      (t.priceLevel ≤ 27 → ∀ u ∈ [(⟨30, 5⟩ : OrderTier), ⟨25, 10⟩],
        u.priceLevel ≤ 27 → u.priceLevel ≤ t.priceLevel) ∧
      (27 < t.priceLevel → ∀ u ∈ [(⟨30, 5⟩ : OrderTier), ⟨25, 10⟩],
        t.priceLevel ≤ u.priceLevel)) := by
  constructor
  · norm_num [P1.lookupOversub, P1.lookupFromSorted, List.insertionSort,
      List.orderedInsert, tierGE, List.find?]
  · exact c5_corrected [⟨30, 5⟩, ⟨25, 10⟩] 27 (by simp)

/-- C5 counterexample: in the ipoPricingService variant, with the same
tiers `{$30: 5×, $25: 10×}` and a candidate price of 20 (below every
tier), the lookup returns `round(10 × (1 + 5 × 0.05)) = 13×`, not the
lowest tier's `10×` — demand IS extrapolated below the floor. -/
theorem c5_counterexample :
    Svc.oversubscriptionAt [⟨30, 5⟩, ⟨25, 10⟩] 20 = 13 ∧ (13 : ℚ) ≠ 10 := by
  constructor
  · norm_num [Svc.oversubscriptionAt, List.insertionSort, List.orderedInsert, tierGE,
      List.find?, lastTier, round_eq]
  · norm_num

/-- C6 (amended): for every candidate price, each named investor whose
stated maximum acceptable price is NONZERO and below the candidate price is
excluded (an investor whose stated maximum is exactly 0 is never excluded —
the JS truthiness guard `investor.maxPrice && …` skips it; see the
counterexample); lost demand is the sum of the excluded investors'
indicated sizes; and when lost demand and gross proceeds are positive,
effective oversubscription equals
raw × (1 − lostDemand ÷ (grossProceeds × raw)), with no artificial floor
applied (the witness exhibits a negative result). -/
theorem c6_corrected (a : P1.Assumptions) (p : ℚ) :
    (P1.buildRow a p).demandLostM =
      ((P1.droppedInvestors a.notableOrders p).map P1.NotableOrder.indicatedSizeM).sum ∧
    (P1.buildRow a p).investorsDropping =
      (P1.droppedInvestors a.notableOrders p).map P1.NotableOrder.investorName ∧
    (0 < (P1.buildRow a p).demandLostM → 0 < (P1.buildRow a p).grossProceedsM →
      (P1.buildRow a p).effectiveOversubscription =
        (P1.buildRow a p).oversubscription *
          (1 - (P1.buildRow a p).demandLostM /
            ((P1.buildRow a p).grossProceedsM * (P1.buildRow a p).oversubscription))) ∧
    (¬ (0 < (P1.buildRow a p).demandLostM ∧ 0 < (P1.buildRow a p).grossProceedsM) →
      (P1.buildRow a p).effectiveOversubscription = (P1.buildRow a p).oversubscription) := by
  refine ⟨rfl, rfl, ?_, ?_⟩
  · intro h1 h2
    rw [buildRow_eff_eq, if_pos ⟨h1, h2⟩]
  · intro h
    rw [buildRow_eff_eq, if_neg h]

/-- C6 witness: a $25+ 2× book at price 30 with a $10,000M order capped at
$28 gives effective oversubscription 2 × (1 − 10000/(300 × 2)) = −94/3,
which is negative — no floor is applied. -/
theorem c6_witness :
    (P1.buildRow c6WitnessInput 30).effectiveOversubscription = -(94 / 3) ∧
    (P1.buildRow c6WitnessInput 30).effectiveOversubscription < 0 := by
  have hl : (P1.buildRow c6WitnessInput 30).demandLostM = 10000 := by
    norm_num [P1.buildRow, P1.droppedInvestors, c6WitnessInput, zeroP1]
  have hg : (P1.buildRow c6WitnessInput 30).grossProceedsM = 300 := by
    norm_num [P1.buildRow, P1.useDollarBased, c6WitnessInput, zeroP1]
  have ho : (P1.buildRow c6WitnessInput 30).oversubscription = 2 := by
    norm_num [P1.buildRow, P1.lookupOversub, P1.lookupFromSorted, List.insertionSort,
      List.orderedInsert, tierGE, List.find?, c6WitnessInput, zeroP1]
  have h := (c6_corrected c6WitnessInput 30).2.2.1
    (by rw [hl]; norm_num) (by rw [hg]; norm_num)
  rw [hl, hg, ho] at h
  rw [h]
  norm_num

/-- C6 counterexample: an investor with stated maximum acceptable price 0
(below the candidate price 20) is NOT excluded — the computed lost demand
is 0 while the claim's reading demands their full $50M size. -/
theorem c6_counterexample :
    (P1.buildRow c6CounterInput 20).demandLostM = 0 ∧
    P1.specLostDemand c6CounterInput.notableOrders 20 = 50 ∧ (0 : ℚ) ≠ 50 := by
  refine ⟨?_, ?_, by norm_num⟩
  · norm_num [P1.buildRow, P1.droppedInvestors, c6CounterInput, zeroP1]
  · norm_num [P1.specLostDemand, c6CounterInput, zeroP1]

/-- C7: when the primary raise is dollar-denominated, the primary (and
secondary, and greenshoe) share counts in each matrix row are recomputed
from that row's offer price: primary shares = dollars ÷ offer price. -/
theorem c7_confirmed (a : P1.Assumptions) (p : ℚ) (h : P1.useDollarBased a = true) :
    (P1.buildRow a p).sharesSoldPrimary = a.primaryDollarRaiseM.getD 0 / p ∧
    (P1.buildRow a p).sharesSoldSecondary = a.secondaryDollarRaiseM.getD 0 / p ∧
    (P1.buildRow a p).sharesSoldGreenshoe =
      a.primaryDollarRaiseM.getD 0 / p * a.greenshoePercent := by
  refine ⟨?_, ?_, ?_⟩ <;> simp [P1.buildRow, h]

/-- C7 witness: Scenario A — pre-IPO shares 100M, $200M primary raise, $20
offer price, no greenshoe ⇒ primary shares = 10M and dilution =
10/(100+10) = 1/11 ≈ 9.09%. -/
theorem c7_witness :
    P1.useDollarBased c7Input = true ∧
    (P1.buildRow c7Input 20).sharesSoldPrimary = 10 ∧
    (P1.buildRow c7Input 20).dilutionPercent = 1 / 11 := by
  have hd : P1.useDollarBased c7Input = true := by
    norm_num [P1.useDollarBased, c7Input, zeroP1]
  refine ⟨hd, ?_, ?_⟩
  · rw [(c7_confirmed c7Input 20 hd).1]
    norm_num [c7Input, zeroP1]
  · norm_num [P1.buildRow, P1.useDollarBased, c7Input, zeroP1]

/-- C8 (amended): in the part_001 engine the day-one-return book-quality
term equals ln(effective oversubscription) whenever an order book was
supplied, at least one sector first-day benchmark was supplied, and the
effective oversubscription is positive and not exactly 1; and the term is
zero in every row when no order book was supplied.  (The ipoPricingService
variant computes a piecewise-linear term instead, nonzero even with no
book — see the counterexample.) -/
theorem c8_corrected (a : P1.Assumptions) (p : ℚ) :
    (P1.hasExplicitOrderBook a = true → P1.hasUserProvidedPopData a = true →
      0 < (P1.buildRow a p).effectiveOversubscription →
      (P1.buildRow a p).effectiveOversubscription ≠ 1 →
      P1.rowBookQualityAdjustment a p =
        Real.log (((P1.buildRow a p).effectiveOversubscription : ℚ) : ℝ)) ∧
    (P1.hasExplicitOrderBook a = false → P1.rowBookQualityAdjustment a p = 0) := by
  constructor
  · intro hb hp h0 h1
    unfold P1.rowBookQualityAdjustment P1.bookQualityAdjustment
    rw [if_pos hp, if_pos ⟨hb, h0, h1⟩]
  · intro hb
    unfold P1.rowBookQualityAdjustment P1.bookQualityAdjustment
    rw [hb]
    simp

/-- C8 witness: a $25+ 10× book with sector benchmark data and no drop-off
gives a book-quality term of ln 10. -/
theorem c8_witness :
    P1.rowBookQualityAdjustment c8WitnessInput 30 = Real.log 10 := by
  have heff : (P1.buildRow c8WitnessInput 30).effectiveOversubscription = 10 := by
    norm_num [P1.buildRow, P1.droppedInvestors, P1.lookupOversub, P1.lookupFromSorted,
      List.insertionSort, List.orderedInsert, tierGE, List.find?, c8WitnessInput, zeroP1]
  have h := (c8_corrected c8WitnessInput 30).1
    (by norm_num [P1.hasExplicitOrderBook, c8WitnessInput, zeroP1])
    (by norm_num [P1.hasUserProvidedPopData, c8WitnessInput, zeroP1])
    (by rw [heff]; norm_num) (by rw [heff]; norm_num)
  rw [h, heff]
  norm_cast

/-- C8 counterexample: in the ipoPricingService variant, with NO order book
supplied the neutral oversubscription 1 feeds the piecewise-linear book
adjustment, which evaluates to (5 − 1) × (−0.03) = −3/25 = −12 pp — the
term is not omitted (zero) when no order book was supplied. -/
theorem c8_counterexample :
    Svc.bookQualityAdjustment (Svc.oversubscriptionAt [] 25) = -(3 / 25) ∧
    (-(3 / 25) : ℚ) ≠ 0 := by
  constructor
  · norm_num [Svc.oversubscriptionAt, Svc.bookQualityAdjustment, List.insertionSort]
  · norm_num

/-- C9: across the rows of one pricing matrix — for share-denominated
offerings the share counts are identical in every row and gross proceeds
strictly increase with offer price (for a non-empty offering); for
dollar-denominated offerings gross proceeds are identical in every row and
the implied primary share count strictly decreases as the offer price
rises. -/
theorem c9_confirmed (a : P1.Assumptions) (p q : ℚ) :
    (P1.useDollarBased a = false →
      (P1.buildRow a p).totalSharesSold = (P1.buildRow a q).totalSharesSold ∧
      (0 < (P1.buildRow a p).totalSharesSold → p < q →
        (P1.buildRow a p).grossProceedsM < (P1.buildRow a q).grossProceedsM)) ∧
    (P1.useDollarBased a = true → p ≠ 0 → q ≠ 0 →
      (P1.buildRow a p).grossProceedsM = (P1.buildRow a q).grossProceedsM ∧
      (0 < p → p < q →
        (P1.buildRow a q).sharesSoldPrimary < (P1.buildRow a p).sharesSoldPrimary)) := by
  constructor
  · intro h
    have hg : ∀ r : ℚ, (P1.buildRow a r).grossProceedsM =
        r * (P1.buildRow a r).totalSharesSold := by
      intro r
      simp [P1.buildRow, h]
      try ring
    have he : (P1.buildRow a p).totalSharesSold = (P1.buildRow a q).totalSharesSold := by
      simp [P1.buildRow, h]
    refine ⟨he, ?_⟩
    intro htot hpq
    rw [hg p, hg q, ← he]
    exact mul_lt_mul_of_pos_right hpq htot
  · intro h hp hq
    have hD := useDollarBased_pos a h
    constructor
    · simp only [P1.buildRow, h, if_true]
      field_simp
      try ring
    · intro hp0 hpq
      simp only [P1.buildRow, h, if_true]
      exact div_lt_div_of_pos_left hD hp0 hpq

/-- C9 witness: the share-denominated offering (10+2+1 = 13M shares) has
equal row share counts and strictly larger gross proceeds at $21 than at
$20; the dollar-denominated offering ($200M + $50M, 15% greenshoe) has
equal gross proceeds at $20 and $25 and a strictly smaller implied primary
share count at the higher price. -/
theorem c9_witness :
    ((P1.buildRow c9ShareInput 20).totalSharesSold =
        (P1.buildRow c9ShareInput 21).totalSharesSold ∧
      (P1.buildRow c9ShareInput 20).grossProceedsM <
        (P1.buildRow c9ShareInput 21).grossProceedsM) ∧
    ((P1.buildRow c9DollarInput 20).grossProceedsM =
        (P1.buildRow c9DollarInput 25).grossProceedsM ∧
      (P1.buildRow c9DollarInput 25).sharesSoldPrimary <
        (P1.buildRow c9DollarInput 20).sharesSoldPrimary) := by
  constructor
  · have h := (c9_confirmed c9ShareInput 20 21).1
      (by norm_num [P1.useDollarBased, c9ShareInput, zeroP1])
    refine ⟨h.1, h.2 ?_ (by norm_num)⟩
    norm_num [P1.buildRow, P1.useDollarBased, c9ShareInput, zeroP1]
  · have h := (c9_confirmed c9DollarInput 20 25).2
      (by norm_num [P1.useDollarBased, c9DollarInput, zeroP1])
      (by norm_num) (by norm_num)
    exact ⟨h.1, h.2 (by norm_num) (by norm_num)⟩

/-- C10: in the shareholder-structure engine, post-IPO debt equals
max(0, currentDebt − debtRepaymentAmount) and is never negative, while
post-IPO cash subtracts the FULL debtRepaymentAmount — so when the
requested repayment exceeds current debt, the excess still drains cash even
though debt is clamped at zero.  The same holds inside every
`createScenario` row. -/
theorem c10_confirmed (a : P0.Assumptions) (mid : ℚ) :
    P0.postIPODebt a = max 0 (a.currentDebt - a.debtRepaymentAmount) ∧
    0 ≤ P0.postIPODebt a ∧
    P0.postIPOCash a mid =
      a.currentCash + P0.netPrimaryProceeds a mid + P0.greenshoeProceeds a mid -
        a.debtRepaymentAmount ∧
    (a.currentDebt ≤ a.debtRepaymentAmount → P0.postIPODebt a = 0) ∧
    P0.scenarioPostDebt a = max 0 (a.currentDebt - a.debtRepaymentAmount) ∧
    (∀ price prim : ℚ, P0.scenarioPostCash a price prim =
      a.currentCash + prim * price * (1 - P0.underwritingDiscount) +
        P0.scenarioGreenshoe a prim * price * (1 - P0.underwritingDiscount) -
        a.debtRepaymentAmount) := by
  refine ⟨rfl, le_max_left 0 _, rfl, ?_, rfl, fun _ _ => rfl⟩
  intro h
  unfold P0.postIPODebt
  rw [max_eq_left (sub_nonpos.mpr h)]

/-- C10 witness: with $100M debt, a $150M requested repayment, $50M cash
and $186M net primary proceeds at $20, post-IPO debt is clamped to 0 while
post-IPO cash is 50 + 186 + 0 − 150 = 86 — the $50M excess drained cash. -/
theorem c10_witness :
    P0.postIPODebt c10Input = 0 ∧ P0.postIPOCash c10Input 20 = 86 := by
  constructor
  · exact (c10_confirmed c10Input 20).2.2.2.1 (by norm_num [c10Input, zeroP0])
  · norm_num [P0.postIPOCash, P0.netPrimaryProceeds, P0.grossPrimaryProceeds,
      P0.greenshoeProceeds, P0.greenshoeShares, P0.totalOfferingShares,
      P0.primarySharesAtMid, P0.secondaryShares, P0.secondaryCalc,
      P0.underwritingDiscount, c10Input, zeroP0]
